import Mathlib

/-!
Shallow embedding of the batch workout-sync handler
(src/netlify/functions/workout-sync.js) and proofs about it.

Modelling conventions:
- JS strings are `List Char`; `toLowerCase` is modelled for ASCII letters
  (all labels of interest are ASCII).
- JS numbers carrying durations and calories are `ℚ`; `Math.round` is
  floor of the value plus one half (round half toward positive infinity),
  matching JS semantics on finite values.
- A workout entry field that may be `undefined` (or an unparseable date)
  is an `Option`: `startDate = none` models a value on which
  `new Date(startDate).toISOString()` throws, `type = none` models a value
  on which `type.toLowerCase()` throws. When `startDate` is present it is
  represented directly by the canonical ISO-8601 string that
  `new Date(startDate).toISOString()` produces, since date parsing and
  formatting live in the JS runtime, outside this repository.
- The Notion client is an oracle `env : Nat → Except (List Char) (List Char)`:
  the n-th `pages.create` call of the request either throws with a message
  or returns the created page identifier. The database is a list of stored
  records; the per-request query filtering on `Date equals today` is a list
  filter. Records created by the handler are reported in creation order.
- The handler model `handleBody` covers the POST body path of the source
  (lines 35-182): the parsed-body alternatives are `malformed` (JSON.parse
  throws — note this is caught by the try/catch at line 172, not by the
  validation at line 38), `noList` (the parsed body has no array under
  `workouts`), and `workouts`. The output records the response, the list
  of records created during the request (these persist in the external
  database even when the request ends in a 500), and whether the dedup
  query of line 48 was executed. The human-readable `summary` string of
  the 200 response is not modelled; the `added`/`skipped` counts and the
  `workouts`/`duplicates` lists are.
-/

namespace WorkoutSync

/-- ASCII lowercasing of one character, as `String.prototype.toLowerCase`
acts on ASCII input. -/
def lowerChar (c : Char) : Char :=
  if 'A' ≤ c ∧ c ≤ 'Z' then Char.ofNat (c.toNat + 32) else c

/-- Lowercase a whole string (list of characters). -/
def lowerStr (s : List Char) : List Char := s.map lowerChar

/-- `hay.includes(pat)`: substring containment, JS `String.prototype.includes`. -/
def strContains : List Char → List Char → Bool
  | [], pat => pat.isEmpty
  | c :: rest, pat => pat.isPrefixOf (c :: rest) || strContains rest pat

/-- The yoga test of `categorizeWorkout` (source line 189). -/
def yogaMatch (t : List Char) : Bool := strContains t ("yoga".toList)

/-- Keywords of the strength branch of `categorizeWorkout` (lines 193-195),
in source order. -/
def strengthKeywords : List (List Char) :=
  [ "functional strength".toList, "strength".toList, "weight".toList,
    "lifting".toList, "bodybuilding".toList, "crosstraining".toList ]

/-- Keywords of the cardio branch of `categorizeWorkout` (lines 199-203),
in source order. -/
def cardioKeywords : List (List Char) :=
  [ "cardio".toList, "running".toList, "cycling".toList, "treadmill".toList,
    "bike".toList, "stair".toList, "hiit".toList, "rowing".toList,
    "elliptical".toList, "walking".toList ]

/-- The strength test of `categorizeWorkout`. -/
def strengthMatch (t : List Char) : Bool := strengthKeywords.any (strContains t)

/-- The cardio test of `categorizeWorkout`. -/
def cardioMatch (t : List Char) : Bool := cardioKeywords.any (strContains t)

/-- `categorizeWorkout` (source lines 185-208): lowercase, then first-match
over the ordered keyword groups yoga, strength, cardio; default Other. -/
def categorizeWorkout (workoutType : List Char) : List Char :=
  let t := lowerStr workoutType
  if yogaMatch t then "Yoga".toList
  else if strengthMatch t then "Lifting".toList
  else if cardioMatch t then "Cardio".toList
  else "Other".toList

/-- `Math.round` on a finite JS number: floor of the value plus one half
(round half toward positive infinity). Written with integer division on
numerator and denominator so that it evaluates by kernel reduction. -/
def jsRound (q : ℚ) : Int := (2 * q.num + (q.den : Int)) / (2 * (q.den : Int))

/-- `iso.split('T')[0]`: the calendar-day part of an ISO date-time string. -/
def dayOf (iso : List Char) : List Char := iso.takeWhile (fun c => c ≠ 'T')

/-- One row of the Notion workout database, with the properties the batch
handler reads and writes (source lines 100-140). -/
structure StoredRecord where
  date : List Char
  workoutType : List Char
  specificActivity : List Char
  duration : Int
  calories : ℚ
  source : List Char
  startTime : List Char
  notionId : List Char
deriving DecidableEq

/-- One element of the incoming `workouts` list (source lines 62-69).
`endDate` is destructured by the source but never used, so it is omitted.
`type = none` models a missing or non-string `type`; `startDate = none`
models a missing or unparseable start date; otherwise `startDate` holds
the ISO string produced by `new Date(startDate).toISOString()`. -/
structure Workout where
  type : Option (List Char)
  duration : ℚ
  calories : Option ℚ
  startDate : Option (List Char)
  source : Option (List Char)
deriving DecidableEq

/-- One element of the `results` list (source lines 143-148). -/
structure AddedItem where
  workout : List Char
  duration : Int
  category : List Char
  notionId : List Char
deriving DecidableEq

/-- One element of the `skipped` list (source lines 84-88). -/
structure SkippedItem where
  workout : Option (List Char)
  duration : Int
  reason : List Char
deriving DecidableEq

/-- The duplicate check of source lines 73-81: some fetched record matches
the entry on stored Specific Activity text, Duration number, and Start
Time text. -/
def isDuplicate (existing : List StoredRecord) (type : Option (List Char))
    (durationR : Int) (startTime : List Char) : Bool :=
  existing.any (fun e =>
    (some e.specificActivity == type) && (e.duration == durationR) &&
      (e.startTime == startTime))

/-- The record built by `notion.pages.create` (source lines 96-141) for an
entry with type string `t`, ISO start string `iso`, raw entry `w`, and
created page id `pid`. -/
def mkRecord (t iso : List Char) (w : Workout) (pid : List Char) : StoredRecord :=
  { date := dayOf iso
  , workoutType := categorizeWorkout t
  , specificActivity := t
  , duration := jsRound w.duration
  , calories := w.calories.getD 0
  , source := w.source.getD ("Apple Watch".toList)
  , startTime := iso
  , notionId := pid }

/-- Result of the per-entry loop (source lines 61-149): either it finishes
with the accumulated `results`, `skipped` and created records, or some
entry throws with a message, carrying the records created before the
throw. -/
inductive LoopResult where
  | ok (results : List AddedItem) (skipped : List SkippedItem)
      (written : List StoredRecord)
  | err (details : List Char) (written : List StoredRecord)
deriving DecidableEq

/-- The message of the exception thrown by `new Date(...).toISOString()`
on an invalid or missing start date. -/
def invalidTimeMsg : List Char := "Invalid time value".toList

/-- The message of the exception thrown by `type.toLowerCase()` when `type`
is missing (modelled; the runtime message names the undefined property). -/
def badTypeMsg : List Char := "type.toLowerCase is not a function".toList

/-- The loop of source lines 61-149 over the incoming entries. `existing`
is the candidate set fetched once at line 48 — it is never extended inside
the loop. `env n` is the outcome of the n-th `pages.create` call. -/
def processLoop (existing : List StoredRecord)
    (env : Nat → Except (List Char) (List Char)) :
    List Workout → List AddedItem → List SkippedItem → List StoredRecord →
    Nat → LoopResult
  | [], results, skipped, written, _ => .ok results skipped written
  | w :: rest, results, skipped, written, n =>
    match w.startDate with
    | none => .err invalidTimeMsg written
    | some iso =>
      if isDuplicate existing w.type (jsRound w.duration) iso then
        processLoop existing env rest results
          (skipped ++ [⟨w.type, jsRound w.duration, "Already exists".toList⟩])
          written n
      else
        match w.type with
        | none => .err badTypeMsg written
        | some t =>
          match env n with
          | .error msg => .err msg written
          | .ok pid =>
            processLoop existing env rest
              (results ++ [⟨t, jsRound w.duration, categorizeWorkout t, pid⟩])
              skipped (written ++ [mkRecord t iso w pid]) (n + 1)

/-- The response of the POST path: 200 with counts and per-entry lists,
400 with an error message, or 500 with an error message and detail. -/
inductive Response where
  | success (added : Nat) (skippedCount : Nat) (workouts : List AddedItem)
      (duplicates : List SkippedItem)
  | badRequest (error : List Char)
  | serverError (error : List Char) (details : List Char)
deriving DecidableEq

/-- HTTP status code of a response. -/
def Response.status : Response → Nat
  | .success _ _ _ _ => 200
  | .badRequest _ => 400
  | .serverError _ _ => 500

/-- The POST body after `JSON.parse` and destructuring: `malformed` when
`JSON.parse(event.body)` (or the destructuring of a non-object) throws,
`noList` when the parsed body has no array value under `workouts`, and
`workouts` otherwise. -/
inductive ReqBody where
  | malformed (msg : List Char)
  | noList
  | workouts (ws : List Workout)

/-- What a request did: its response, the records created in the external
database during the request, and whether the dedup query ran. -/
structure HandlerOutput where
  response : Response
  written : List StoredRecord
  queried : Bool
deriving DecidableEq

/-- The query of source lines 48-56: all records whose Date equals today. -/
def todayFilter (db : List StoredRecord) (today : List Char) :
    List StoredRecord :=
  db.filter (fun r => r.date == today)

/-- The fixed error message of the 400 response (source line 42). -/
def invalidDataMsg : List Char := "Invalid workout data".toList

/-- The fixed error message of the 500 response (source line 178). -/
def failedMsg : List Char := "Failed to process workout data".toList

/-- The POST body path of the handler (source lines 35-182): a body on
which `JSON.parse` throws is caught by the try/catch and yields 500; a
parsed body without an array under `workouts` yields 400 before any
query; otherwise the same-day records are fetched once and the loop runs,
yielding 200 with the accumulated lists, or 500 with the thrown message. -/
def handleBody (db : List StoredRecord) (today : List Char)
    (env : Nat → Except (List Char) (List Char)) (body : ReqBody) :
    HandlerOutput :=
  match body with
  | .malformed msg => ⟨.serverError failedMsg msg, [], false⟩
  | .noList => ⟨.badRequest invalidDataMsg, [], false⟩
  | .workouts ws =>
    match processLoop (todayFilter db today) env ws [] [] [] 0 with
    | .ok results skipped written =>
      ⟨.success results.length skipped.length results skipped, written, true⟩
    | .err details written =>
      ⟨.serverError failedMsg details, written, true⟩

/-- The records a finished or aborted loop has created. -/
def LoopResult.written : LoopResult → List StoredRecord
  | .ok _ _ w => w
  | .err _ w => w

/-- Concrete ISO start string used in witnesses: 8am UTC on 2024-01-01. -/
def cxIso : List Char := "2024-01-01T08:00:00.000Z".toList

/-- Concrete well-formed yoga entry of 45 minutes. -/
def cxYoga : Workout := ⟨some ("Yoga".toList), 45, none, some cxIso, none⟩

/-- Concrete entry with a negative raw duration. -/
def cxNeg : Workout := ⟨some ("Yoga".toList), mkRat (-3) 2, none, some cxIso, none⟩

/-- Concrete entry whose start date fails to parse. -/
def cxBadDate : Workout := ⟨some ("Yoga".toList), 45, none, none, none⟩

/-- Create oracle that always succeeds, with distinct ids per call. -/
def cxEnv : Nat → Except (List Char) (List Char) :=
  fun n => .ok [Char.ofNat (97 + n)]

/-- Create oracle whose second call throws. -/
def cxEnvFail : Nat → Except (List Char) (List Char) :=
  fun n => if n = 0 then .ok ['a'] else .error ("create failed".toList)

/-- Candidate set already holding the stored form of `cxYoga`. -/
def cxExisting : List StoredRecord := [mkRecord ("Yoga".toList) cxIso cxYoga ['a']]

end WorkoutSync

namespace WorkoutSync

/-- `jsRound` is the floor of the input plus one half. -/
theorem jsRound_eq_floor (q : ℚ) : jsRound q = ⌊q + 1/2⌋ := by
  have hden : ((q.den : ℚ)) ≠ 0 := by exact_mod_cast q.den_nz
  have hnum : (q.num : ℚ) = q * q.den := (div_eq_iff hden).mp (Rat.num_div_den q)
  have h : q + 1/2 = (((2 * q.num + (q.den : Int) : Int) : ℚ)) / (((2 * q.den : ℕ) : ℚ)) := by
    push_cast
    rw [eq_div_iff (mul_ne_zero two_ne_zero hden), hnum]
    ring
  rw [h, Rat.floor_intCast_div_natCast]
  unfold jsRound
  push_cast
  rfl

/-- `jsRound` of a non-negative rational is non-negative. -/
theorem jsRound_nonneg (q : ℚ) (h : 0 ≤ q) : 0 ≤ jsRound q := by
  rw [jsRound_eq_floor]
  exact Int.floor_nonneg.mpr (by linarith)

-- Tests of the model against concrete behaviour of the source.
example : jsRound (mkRat 626 10) = 63 := by decide
example : jsRound (mkRat (-3) 2) = -1 := by decide
example : jsRound (mkRat 45 1) = 45 := by decide

/-- C5: every type label whose lowercasing contains the substring "yoga"
is classified Yoga, regardless of any other keywords present in the label,
because the yoga group is tested first. -/
theorem c5_yoga_first_match (t : List Char)
    (h : strContains (lowerStr t) ("yoga".toList) = true) :
    categorizeWorkout t = "Yoga".toList := by
  simp only [categorizeWorkout, yogaMatch, h, if_true]

/-- Witness for C5: a label containing both "yoga" and "strength"
resolves to Yoga. -/
theorem c5_yoga_first_match_witness :
    categorizeWorkout ("Power Yoga Strength".toList) = "Yoga".toList :=
  c5_yoga_first_match _ (by decide)

/-- C4 counterexample: the label "swim" satisfies the claim hypotheses —
it contains the claimed cardio keyword "swim" and matches neither the yoga
group nor the strength group — yet `categorizeWorkout` returns Other, not
Cardio: the cardio branch of the code has no "swim" keyword. -/
theorem c4_counterexample :
    strContains (lowerStr ("swim".toList)) ("swim".toList) = true ∧
    yogaMatch (lowerStr ("swim".toList)) = false ∧
    strengthMatch (lowerStr ("swim".toList)) = false ∧
    categorizeWorkout ("swim".toList) = "Other".toList ∧
    ("Other".toList : List Char) ≠ "Cardio".toList := by decide

/-- C4 (amended): for every type label that, after lowercasing, contains
any of the keywords cardio, running, cycling, treadmill, bike, stair,
hiit, rowing, elliptical, walking (the exact cardio set of the code —
there is no "swim" keyword, and "run"/"ride" only match through
"running"/"cycling"/"bike"), and matches neither the yoga group nor the
strength group, the classifier returns Cardio. -/
theorem c4_cardio_group (t : List Char)
    (hy : yogaMatch (lowerStr t) = false)
    (hs : strengthMatch (lowerStr t) = false)
    (hc : cardioMatch (lowerStr t) = true) :
    categorizeWorkout t = "Cardio".toList := by
  simp only [categorizeWorkout, hy, hs, hc, if_true, if_false, Bool.false_eq_true]

/-- Witness for C4 (amended): "TRAIL RUNNING" is classified Cardio. -/
theorem c4_cardio_group_witness :
    categorizeWorkout ("TRAIL RUNNING".toList) = "Cardio".toList :=
  c4_cardio_group _ (by decide) (by decide) (by decide)

/-- C6: the classifier is total over the four-value taxonomy — every label
maps to exactly one of Yoga, Lifting, Cardio, Other — and a label matching
no keyword of any group maps to Other. -/
theorem c6_totality (t : List Char) :
    (categorizeWorkout t = "Yoga".toList ∨
     categorizeWorkout t = "Lifting".toList ∨
     categorizeWorkout t = "Cardio".toList ∨
     categorizeWorkout t = "Other".toList) ∧
    (yogaMatch (lowerStr t) = false → strengthMatch (lowerStr t) = false →
     cardioMatch (lowerStr t) = false →
     categorizeWorkout t = "Other".toList) := by
  constructor
  · dsimp only [categorizeWorkout]
    split_ifs <;> tauto
  · intro h1 h2 h3
    simp only [categorizeWorkout, h1, h2, h3, if_false, Bool.false_eq_true]

/-- Witness for C6: "Pilates" contains no keyword and maps to Other. -/
theorem c6_totality_witness :
    categorizeWorkout ("Pilates".toList) = "Other".toList :=
  (c6_totality _).2 (by decide) (by decide) (by decide)

/-- An entry with no type string never matches a stored record. -/
theorem isDuplicate_type_none (existing : List StoredRecord) (r : Int)
    (st : List Char) : isDuplicate existing none r st = false := by
  simp [isDuplicate]

/-- C2: per-entry dedup outcome of the loop. When some record of the
fetched candidate set matches the entry on all three fields, the loop
records a skipped outcome with reason "Already exists" and creates no
record for that entry; when none matches (and the create call succeeds),
it classifies the entry, creates exactly one record, and records an added
outcome carrying the created identifier. -/
theorem c2_per_entry (existing : List StoredRecord)
    (env : Nat → Except (List Char) (List Char)) (w : Workout)
    (rest : List Workout) (results : List AddedItem)
    (skipped : List SkippedItem) (written : List StoredRecord) (n : Nat)
    (iso : List Char) (hs : w.startDate = some iso) :
    (isDuplicate existing w.type (jsRound w.duration) iso = true →
      processLoop existing env (w :: rest) results skipped written n =
        processLoop existing env rest results
          (skipped ++ [⟨w.type, jsRound w.duration, "Already exists".toList⟩])
          written n) ∧
    (∀ t pid, w.type = some t → env n = .ok pid →
      isDuplicate existing w.type (jsRound w.duration) iso = false →
      processLoop existing env (w :: rest) results skipped written n =
        processLoop existing env rest
          (results ++ [⟨t, jsRound w.duration, categorizeWorkout t, pid⟩])
          skipped (written ++ [mkRecord t iso w pid]) (n + 1)) := by
  constructor
  · intro hdup
    simp [processLoop, hs, hdup]
  · intro t pid ht henv hnd
    rw [ht] at hnd
    simp [processLoop, hs, hnd, ht, henv]

/-- Witness for C2: against a candidate set already holding its stored
form, the single entry is skipped as "Already exists" with no record
created. -/
theorem c2_per_entry_witness :
    processLoop cxExisting cxEnv [cxYoga] [] [] [] 0 =
      .ok [] [⟨some ("Yoga".toList), 45, "Already exists".toList⟩] [] := by
  rw [(c2_per_entry cxExisting cxEnv cxYoga [] [] [] [] 0 cxIso rfl).1 (by decide)]
  decide

/-- C3 counterexample: a POST body on which JSON.parse throws is caught by
the try/catch of line 172 and answered with status 500, not 400 — the 400
branch is reached only after a successful parse. -/
theorem c3_counterexample :
    (handleBody [] ("2024-01-01".toList) cxEnv
        (.malformed ("Unexpected token".toList))).response.status = 500 ∧
    (handleBody [] ("2024-01-01".toList) cxEnv
        (.malformed ("Unexpected token".toList))).response.status ≠ 400 ∧
    (handleBody [] ("2024-01-01".toList) cxEnv
        (.malformed ("Unexpected token".toList))).queried = false := by decide

/-- C3 (amended): a POST body that parses as JSON but has no list under
"workouts" is answered 400 with an error message, with no database query
and no write; a body on which JSON.parse throws is answered 500 with an
error message, likewise with no query and no write. -/
theorem c3_amended_validation (db : List StoredRecord) (today : List Char)
    (env : Nat → Except (List Char) (List Char)) (msg : List Char) :
    handleBody db today env .noList = ⟨.badRequest invalidDataMsg, [], false⟩ ∧
    handleBody db today env (.malformed msg) =
      ⟨.serverError failedMsg msg, [], false⟩ :=
  ⟨rfl, rfl⟩

/-- The records a request created are the records its loop created. -/
theorem handleBody_written (db : List StoredRecord) (today : List Char)
    (env : Nat → Except (List Char) (List Char)) (ws : List Workout) :
    (handleBody db today env (.workouts ws)).written =
      (processLoop (todayFilter db today) env ws [] [] [] 0).written := by
  cases h : processLoop (todayFilter db today) env ws [] [] [] 0 <;>
    simp [handleBody, h, LoopResult.written]

/-- Every record the loop creates has as its Duration the rounding of the
duration of some incoming entry. -/
theorem processLoop_duration (existing : List StoredRecord)
    (env : Nat → Except (List Char) (List Char)) :
    ∀ (ws : List Workout) (results : List AddedItem)
      (skipped : List SkippedItem) (written : List StoredRecord) (n : Nat)
      (rec : StoredRecord),
      rec ∈ (processLoop existing env ws results skipped written n).written →
      rec ∈ written ∨ ∃ w ∈ ws, rec.duration = jsRound w.duration := by
  intro ws
  induction ws with
  | nil =>
    intro results skipped written n rec h
    exact Or.inl h
  | cons w rest ih =>
    intro results skipped written n rec h
    rw [processLoop] at h
    cases hsd : w.startDate with
    | none =>
      simp only [hsd] at h
      exact Or.inl h
    | some iso =>
      simp only [hsd] at h
      by_cases hdup : isDuplicate existing w.type (jsRound w.duration) iso = true
      · rw [if_pos hdup] at h
        rcases ih _ _ _ _ _ h with h1 | ⟨w2, hw2, hd2⟩
        · exact Or.inl h1
        · exact Or.inr ⟨w2, List.mem_cons_of_mem _ hw2, hd2⟩
      · rw [if_neg hdup] at h
        cases hty : w.type with
        | none =>
          simp only [hty] at h
          exact Or.inl h
        | some t =>
          simp only [hty] at h
          cases henv : env n with
          | error msg =>
            simp only [henv] at h
            exact Or.inl h
          | ok pid =>
            simp only [henv] at h
            rcases ih _ _ _ _ _ h with h1 | ⟨w2, hw2, hd2⟩
            · rcases List.mem_append.mp h1 with h2 | h2
              · exact Or.inl h2
              · refine Or.inr ⟨w, List.mem_cons_self _ _, ?_⟩
                rw [List.mem_singleton.mp h2]
                rfl
            · exact Or.inr ⟨w2, List.mem_cons_of_mem _ hw2, hd2⟩

/-- C7 counterexample: an entry with raw duration -3/2 is written with
Duration -1, which is negative — nothing clamps or rejects negative
durations, so the stored Duration is not always non-negative. -/
theorem c7_counterexample :
    (handleBody [] ("2024-01-01".toList) cxEnv (.workouts [cxNeg])).written =
      [mkRecord ("Yoga".toList) cxIso cxNeg ['a']] ∧
    (mkRecord ("Yoga".toList) cxIso cxNeg ['a']).duration = -1 ∧
    ((-1 : Int) < 0) := by decide

/-- C7 (amended): every record written by a batch request stores as its
Duration the rounding (floor of value plus one half) of some incoming
raw duration of the entry; when every incoming duration is non-negative the
stored Duration is non-negative; and the rounding maps 62.6 to 63. -/
theorem c7_duration_invariant (db : List StoredRecord) (today : List Char)
    (env : Nat → Except (List Char) (List Char)) (ws : List Workout)
    (rec : StoredRecord)
    (hrec : rec ∈ (handleBody db today env (.workouts ws)).written) :
    (∃ w ∈ ws, rec.duration = jsRound w.duration) ∧
    ((∀ w ∈ ws, 0 ≤ w.duration) → 0 ≤ rec.duration) ∧
    jsRound (mkRat 626 10) = 63 := by
  rw [handleBody_written] at hrec
  rcases processLoop_duration (todayFilter db today) env ws [] [] [] 0 rec hrec
    with h | ⟨w, hw, hd⟩
  · simp at h
  · refine ⟨⟨w, hw, hd⟩, ?_, by decide⟩
    intro hall
    rw [hd]
    exact jsRound_nonneg _ (hall w hw)

/-- C1 counterexample: both requests run on 2024-01-02 while the
startDate of the entry falls on 2024-01-01. The first request writes a record dated
2024-01-01, but the second request queries only records dated 2024-01-02,
finds nothing, and writes the same entry again — reporting one added and
zero skipped instead of one skipped "Already exists". The claim therefore
fails when the day of the startDate differs from the request day. -/
theorem c1_counterexample :
    (handleBody [] ("2024-01-02".toList) cxEnv (.workouts [cxYoga])).written.length = 1 ∧
    (handleBody
        (handleBody [] ("2024-01-02".toList) cxEnv (.workouts [cxYoga])).written
        ("2024-01-02".toList) cxEnv (.workouts [cxYoga])).written.length = 1 ∧
    (handleBody
        (handleBody [] ("2024-01-02".toList) cxEnv (.workouts [cxYoga])).written
        ("2024-01-02".toList) cxEnv (.workouts [cxYoga])).response =
      .success 1 0 [⟨"Yoga".toList, 45, "Yoga".toList, ['a']⟩] [] := by decide

/-- C1 (amended): batch intake is idempotent across requests on the same
day provided the startDate of the entry falls on that same calendar day: if the
first request writes the Stored Record for the entry, a second request on
the same day containing an entry with identical type, duration, and
startDate writes nothing and reports exactly one skipped entry with reason
"Already exists". -/
theorem c1_same_day_idempotent
    (db : List StoredRecord) (today t iso pid : List Char) (w : Workout)
    (env env2 : Nat → Except (List Char) (List Char))
    (ht : w.type = some t) (hs : w.startDate = some iso)
    (hday : dayOf iso = today)
    (hnew : isDuplicate (todayFilter db today) w.type (jsRound w.duration) iso = false)
    (henv : env 0 = .ok pid) :
    (handleBody db today env (.workouts [w])).written = [mkRecord t iso w pid] ∧
    handleBody (db ++ [mkRecord t iso w pid]) today env2 (.workouts [w]) =
      ⟨.success 0 1 []
        [⟨some t, jsRound w.duration, "Already exists".toList⟩], [], true⟩ := by
  rw [ht] at hnew
  constructor
  · simp [handleBody, processLoop, hs, ht, hnew, henv, LoopResult.written]
  · have hdate : (mkRecord t iso w pid).date = today := by rw [← hday]; rfl
    have hfil : todayFilter (db ++ [mkRecord t iso w pid]) today =
        todayFilter db today ++ [mkRecord t iso w pid] := by
      simp [todayFilter, List.filter_append, hdate]
    have hdup : isDuplicate (todayFilter db today ++ [mkRecord t iso w pid])
        (some t) (jsRound w.duration) iso = true := by
      simp [isDuplicate, List.any_append, mkRecord]
    simp [handleBody, processLoop, hs, ht, hfil, hdup]

/-- Witness for C1 (amended): a 45-minute yoga entry written on its own
start day is skipped as "Already exists" by a second identical request. -/
theorem c1_same_day_idempotent_witness :
    (handleBody [] ("2024-01-01".toList) cxEnv (.workouts [cxYoga])).written =
      [mkRecord ("Yoga".toList) cxIso cxYoga ['a']] ∧
    handleBody ([] ++ [mkRecord ("Yoga".toList) cxIso cxYoga ['a']])
        ("2024-01-01".toList) cxEnv (.workouts [cxYoga]) =
      ⟨.success 0 1 []
        [⟨some ("Yoga".toList), jsRound cxYoga.duration,
          "Already exists".toList⟩], [], true⟩ :=
  c1_same_day_idempotent [] ("2024-01-01".toList) ("Yoga".toList) cxIso
    ['a'] cxYoga cxEnv cxEnv rfl rfl (by decide) (by decide) rfl

/-- C8: fail-fast on a create failure. With the first entry written and
the create call of the second entry throwing, the whole request — whatever
entries follow — is answered 500 with the error message and the thrown
detail, no per-entry results are reported, and the record created for the
first entry remains in the external database. -/
theorem c8_fail_fast (db : List StoredRecord)
    (today t1 iso1 t2 iso2 pid msg : List Char) (w1 w2 : Workout)
    (rest : List Workout) (env : Nat → Except (List Char) (List Char))
    (ht1 : w1.type = some t1) (hs1 : w1.startDate = some iso1)
    (hd1 : isDuplicate (todayFilter db today) w1.type (jsRound w1.duration) iso1 = false)
    (henv0 : env 0 = .ok pid)
    (ht2 : w2.type = some t2) (hs2 : w2.startDate = some iso2)
    (hd2 : isDuplicate (todayFilter db today) w2.type (jsRound w2.duration) iso2 = false)
    (henv1 : env 1 = .error msg) :
    handleBody db today env (.workouts (w1 :: w2 :: rest)) =
      ⟨.serverError failedMsg msg, [mkRecord t1 iso1 w1 pid], true⟩ ∧
    Response.status (.serverError failedMsg msg) = 500 := by
  rw [ht1] at hd1
  rw [ht2] at hd2
  refine ⟨?_, rfl⟩
  simp [handleBody, processLoop, hs1, ht1, hd1, henv0, hs2, ht2, hd2, henv1]

/-- Witness for C8: two identical yoga entries with the second create call
throwing yield a 500 carrying the first created record. -/
theorem c8_fail_fast_witness :
    handleBody [] ("2024-01-01".toList) cxEnvFail (.workouts [cxYoga, cxYoga]) =
      ⟨.serverError failedMsg ("create failed".toList),
       [mkRecord ("Yoga".toList) cxIso cxYoga ['a']], true⟩ ∧
    Response.status (.serverError failedMsg ("create failed".toList)) = 500 :=
  c8_fail_fast [] ("2024-01-01".toList) ("Yoga".toList) cxIso
    ("Yoga".toList) cxIso ['a'] ("create failed".toList) cxYoga cxYoga []
    cxEnvFail rfl rfl (by decide) rfl rfl rfl (by decide) rfl

/-- C9: no intra-batch deduplication. The candidate set is fetched once
and never extended during the request, so a request containing the same
entry twice (with no pre-existing matching record) writes two records
sharing the same dedup key of Specific Activity, Duration and Start Time. -/
theorem c9_no_intra_batch_dedup (db : List StoredRecord)
    (today t iso pid1 pid2 : List Char) (w : Workout)
    (env : Nat → Except (List Char) (List Char))
    (ht : w.type = some t) (hs : w.startDate = some iso)
    (hnd : isDuplicate (todayFilter db today) w.type (jsRound w.duration) iso = false)
    (h0 : env 0 = .ok pid1) (h1 : env 1 = .ok pid2) :
    handleBody db today env (.workouts [w, w]) =
      ⟨.success 2 0
        [⟨t, jsRound w.duration, categorizeWorkout t, pid1⟩,
         ⟨t, jsRound w.duration, categorizeWorkout t, pid2⟩] [],
       [mkRecord t iso w pid1, mkRecord t iso w pid2], true⟩ ∧
    (mkRecord t iso w pid1).specificActivity = (mkRecord t iso w pid2).specificActivity ∧
    (mkRecord t iso w pid1).duration = (mkRecord t iso w pid2).duration ∧
    (mkRecord t iso w pid1).startTime = (mkRecord t iso w pid2).startTime := by
  rw [ht] at hnd
  refine ⟨?_, rfl, rfl, rfl⟩
  simp [handleBody, processLoop, hs, ht, hnd, h0, h1]

/-- Witness for C9: a batch holding the same yoga entry twice on an empty
day writes two records. -/
theorem c9_no_intra_batch_dedup_witness :
    handleBody [] ("2024-01-01".toList) cxEnv (.workouts [cxYoga, cxYoga]) =
      ⟨.success 2 0
        [⟨"Yoga".toList, 45, "Yoga".toList, ['a']⟩,
         ⟨"Yoga".toList, 45, "Yoga".toList, ['b']⟩] [],
       [mkRecord ("Yoga".toList) cxIso cxYoga ['a'],
        mkRecord ("Yoga".toList) cxIso cxYoga ['b']], true⟩ := by
  rw [(c9_no_intra_batch_dedup [] ("2024-01-01".toList) ("Yoga".toList)
    cxIso ['a'] ['b'] cxYoga cxEnv rfl rfl (by decide) rfl rfl).1]
  decide

/-- C10: an entry whose start date is missing or unparseable, or whose
type is missing or not a string, makes the loop throw at that entry —
whatever entries follow are not processed — and any request whose loop
throws is answered 500 (not 400, not a per-entry skip) with the records
created before the throw persisting. -/
theorem c10_per_entry_error_is_500 (existing : List StoredRecord)
    (env : Nat → Except (List Char) (List Char)) (w : Workout)
    (rest : List Workout) (results : List AddedItem)
    (skipped : List SkippedItem) (written : List StoredRecord) (n : Nat)
    (h : w.startDate = none ∨ (w.type = none ∧ ∃ iso, w.startDate = some iso)) :
    (∃ d, processLoop existing env (w :: rest) results skipped written n =
      .err d written) ∧
    (∀ (db : List StoredRecord) (today : List Char) (ws : List Workout)
      (d : List Char) (wr : List StoredRecord),
      processLoop (todayFilter db today) env ws [] [] [] 0 = .err d wr →
      handleBody db today env (.workouts ws) =
        ⟨.serverError failedMsg d, wr, true⟩ ∧
      Response.status (handleBody db today env (.workouts ws)).response = 500) := by
  constructor
  · rcases h with h | ⟨ht, iso, hs⟩
    · exact ⟨invalidTimeMsg, by simp [processLoop, h]⟩
    · refine ⟨badTypeMsg, ?_⟩
      have hnd : isDuplicate existing w.type (jsRound w.duration) iso = false := by
        rw [ht]
        exact isDuplicate_type_none existing _ iso
      rw [ht] at hnd
      simp [processLoop, hs, ht, hnd]
  · intro db today ws d wr hloop
    refine ⟨?_, ?_⟩ <;> simp [handleBody, hloop, Response.status]

/-- Witness for C10: an entry with an unparseable start date aborts the
loop at that entry, and an aborted loop yields a 500 response. -/
theorem c10_per_entry_error_is_500_witness :
    (∃ d, processLoop [] cxEnv [cxBadDate] [] [] [] 0 = .err d []) ∧
    (∀ (db : List StoredRecord) (today : List Char) (ws : List Workout)
      (d : List Char) (wr : List StoredRecord),
      processLoop (todayFilter db today) cxEnv ws [] [] [] 0 = .err d wr →
      handleBody db today cxEnv (.workouts ws) =
        ⟨.serverError failedMsg d, wr, true⟩ ∧
      Response.status (handleBody db today cxEnv (.workouts ws)).response = 500) :=
  c10_per_entry_error_is_500 [] cxEnv cxBadDate [] [] [] [] 0 (Or.inl rfl)

/-- Witness for C7 (amended): the 45-minute yoga entry is stored with
Duration 45, a non-negative rounding of its raw duration. -/
theorem c7_duration_invariant_witness :
    (∃ w ∈ [cxYoga],
      (mkRecord ("Yoga".toList) cxIso cxYoga ['a']).duration =
        jsRound w.duration) ∧
    ((∀ w ∈ [cxYoga], 0 ≤ w.duration) →
      0 ≤ (mkRecord ("Yoga".toList) cxIso cxYoga ['a']).duration) ∧
    jsRound (mkRat 626 10) = 63 :=
  c7_duration_invariant [] ("2024-01-01".toList) cxEnv [cxYoga] _ (by decide)

end WorkoutSync
